import Mathlib

/-!
# Stopwatch on ATmega32 (`stopwatch.c`)

A shallow embedding of the firmware: the machine state is a record of the
global variables and of the I/O registers the program touches; every C
function and interrupt handler is a function `State → State`.  Unsigned
8-bit storage is a natural number reduced modulo 256 at every store.
-/

namespace Stopwatch

/-! ## Bit positions of the ATmega32 registers (`avr/io.h`, device ATmega32) -/

/-- Clock select bit 0 of `TCCR1B`. -/
def CS10 : Nat := 0
/-- Clock select bit 1 of `TCCR1B`. -/
def CS11 : Nat := 1
/-- Clock select bit 2 of `TCCR1B`. -/
def CS12 : Nat := 2
/-- Waveform generation bit 2 (CTC) of `TCCR1B`. -/
def WGM12 : Nat := 3
/-- Force output compare A bit of `TCCR1A`. -/
def FOC1A : Nat := 3
/-- Output compare A match interrupt enable bit of `TIMSK`. -/
def OCIE1A : Nat := 4
/-- Sense control bits of `MCUCR` and `MCUCSR`. -/
def ISC00 : Nat := 0
def ISC01 : Nat := 1
def ISC10 : Nat := 2
def ISC11 : Nat := 3
def ISC2 : Nat := 6
/-- External interrupt enable bits of `GICR`. -/
def INT0 : Nat := 6
def INT1 : Nat := 7
def INT2 : Nat := 5
/-- Pin numbers. -/
def PD2 : Nat := 2
def PD3 : Nat := 3
def PB2 : Nat := 2

/-! ## Machine arithmetic -/

/-- Store into an `unsigned char` or an 8-bit register. -/
def u8 (x : Nat) : Nat := x % 256

/-- Store into a 16-bit register. -/
def u16 (x : Nat) : Nat := x % 65536

/-- The C operator `~` on an `int` (16 bits on AVR), as a bit pattern. -/
def bnot (x : Nat) : Nat := 65535 - x % 65536

/-! ## Data model -/

/-- The array `unsigned char ticks_arr[6]`. -/
structure TicksArr where
  e0 : Nat
  e1 : Nat
  e2 : Nat
  e3 : Nat
  e4 : Nat
  e5 : Nat
deriving DecidableEq, Repr

/-- Read `ticks_arr[i]`. -/
def TicksArr.get (a : TicksArr) : Nat → Nat
  | 0 => a.e0
  | 1 => a.e1
  | 2 => a.e2
  | 3 => a.e3
  | 4 => a.e4
  | 5 => a.e5
  | _ => 0

/-- Global variables and I/O registers of the program. -/
structure State where
  Compare_Interrupt_Flag : Nat
  Seconds_Units : Nat
  Seconds_Tens : Nat
  Minutes_Units : Nat
  Minutes_Tens : Nat
  Hours_Units : Nat
  Hours_Tens : Nat
  ticks_arr : TicksArr
  SREG : Nat
  DDRA : Nat
  PORTA : Nat
  DDRB : Nat
  PORTB : Nat
  DDRC : Nat
  PORTC : Nat
  DDRD : Nat
  PORTD : Nat
  MCUCR : Nat
  MCUCSR : Nat
  GICR : Nat
  TCCR1A : Nat
  TCCR1B : Nat
  TCNT1 : Nat
  OCR1A : Nat
  TIMSK : Nat
deriving DecidableEq, Repr

/-- The all-zero digit array (static storage is zero-initialised). -/
def zeroTicks : TicksArr := ⟨0, 0, 0, 0, 0, 0⟩

/-- The state after power-up: every variable and register is zero. -/
def zeroState : State :=
  { Compare_Interrupt_Flag := 0, Seconds_Units := 0, Seconds_Tens := 0,
    Minutes_Units := 0, Minutes_Tens := 0, Hours_Units := 0, Hours_Tens := 0,
    ticks_arr := zeroTicks, SREG := 0, DDRA := 0, PORTA := 0, DDRB := 0,
    PORTB := 0, DDRC := 0, PORTC := 0, DDRD := 0, PORTD := 0, MCUCR := 0,
    MCUCSR := 0, GICR := 0, TCCR1A := 0, TCCR1B := 0, TCNT1 := 0, OCR1A := 0,
    TIMSK := 0 }

/-! ## Interrupt handlers -/

/-- Handler `ISR(TIMER1_COMPA_vect)`. -/
def TIMER1_COMPA_vect (s : State) : State :=
  let s := { s with SREG := u8 (s.SREG ||| (1 <<< 7)) }
  { s with Compare_Interrupt_Flag := 1 }

/-- Handler `ISR(INT0_vect)`. -/
def INT0_vect (s : State) : State :=
  let s := { s with SREG := u8 (s.SREG ||| (1 <<< 7)) }
  let s := { s with Seconds_Units := 0 }
  let s := { s with Seconds_Tens := 0 }
  let s := { s with Minutes_Units := 0 }
  let s := { s with Minutes_Tens := 0 }
  let s := { s with Hours_Units := 0 }
  { s with Hours_Tens := 0 }

/-- Handler `ISR(INT1_vect)`. -/
def INT1_vect (s : State) : State :=
  let s := { s with SREG := u8 (s.SREG ||| (1 <<< 7)) }
  { s with
    TCCR1B := u8 (s.TCCR1B &&& (bnot (1 <<< CS10) &&& bnot (1 <<< CS11) &&& bnot (1 <<< CS12))) }

/-- Handler `ISR(INT2_vect)`. -/
def INT2_vect (s : State) : State :=
  let s := { s with SREG := u8 (s.SREG ||| (1 <<< 7)) }
  { s with TCCR1B := u8 (s.TCCR1B ||| ((1 <<< CS10) ||| (1 <<< CS12))) }

/-! ## Initialisation functions -/

/-- Function `INT0_Init`.  In C, `&` binds tighter than `|=`. -/
def INT0_Init (s : State) : State :=
  let s := { s with MCUCR := u8 (s.MCUCR ||| ((1 <<< ISC01) &&& bnot (1 <<< ISC00))) }
  let s := { s with GICR := u8 (1 <<< INT0) }
  let s := { s with DDRD := u8 (s.DDRD &&& bnot (1 <<< PD2)) }
  { s with PORTD := u8 (s.PORTD ||| (1 <<< PD2)) }

/-- Function `INT1_Init`. -/
def INT1_Init (s : State) : State :=
  let s := { s with MCUCR := u8 (s.MCUCR ||| ((1 <<< ISC11) ||| (1 <<< ISC10))) }
  let s := { s with GICR := u8 (s.GICR ||| (1 <<< INT1)) }
  { s with DDRD := u8 (s.DDRD &&& bnot (1 <<< PD3)) }

/-- Function `INT2_Init`. -/
def INT2_Init (s : State) : State :=
  let s := { s with MCUCSR := u8 (s.MCUCSR &&& bnot (1 <<< ISC2)) }
  let s := { s with GICR := u8 (s.GICR ||| (1 <<< INT2)) }
  let s := { s with DDRB := u8 (s.DDRB &&& bnot (1 <<< PB2)) }
  { s with PORTB := u8 (s.PORTB ||| (1 <<< PB2)) }

/-- Function `Timer1_CompareMode_Init`. -/
def Timer1_CompareMode_Init (s : State) : State :=
  let s := { s with TCCR1A := u8 (1 <<< FOC1A) }
  let s := { s with TCCR1B := u8 ((1 <<< WGM12) ||| (1 <<< CS12) ||| (1 <<< CS10)) }
  let s := { s with TCNT1 := u16 0 }
  let s := { s with OCR1A := u16 977 }
  { s with TIMSK := u8 (s.TIMSK ||| (1 <<< OCIE1A)) }

/-! ## Display and time update -/

/-- The `for` loop of `Seven_Segment_Display`, entered with the given value
of `loop_iterator`.  The result is the list of states at the successive
`_delay_ms(2)` calls (one per position-step) and the state at loop exit. -/
def Seven_Segment_Display_loop (loop_iterator : Nat) (s : State) : List State × State :=
  if loop_iterator < 6 then
    let s := { s with PORTA := u8 ((s.PORTA &&& 0xC0) ||| (1 <<< loop_iterator)) }
    let s := { s with PORTC := u8 ((s.PORTC &&& 0x00) ||| (0x0F &&& s.ticks_arr.get loop_iterator)) }
    let r := Seven_Segment_Display_loop (u8 (loop_iterator + 1)) s
    (s :: r.1, r.2)
  else
    ([], s)
termination_by 6 - loop_iterator
decreasing_by
  simp only [u8]
  omega

/-- Function `Seven_Segment_Display`: the state when the call returns. -/
def Seven_Segment_Display (s : State) : State :=
  (Seven_Segment_Display_loop 0 s).2

/-- The position-steps of one call of `Seven_Segment_Display`: the states
held during the successive dwell delays. -/
def Seven_Segment_Display_steps (s : State) : List State :=
  (Seven_Segment_Display_loop 0 s).1

/-- Function `Seven_Segment_Stopwatch_Update`.  The function reads and
writes the global array `ticks_arr` only; `t` is the array as the
successive statements leave it. -/
def Seven_Segment_Stopwatch_Update (s : State) : State :=
  let t : TicksArr := s.ticks_arr
  let t : TicksArr := { t with e0 := u8 (t.e0 + 1) }
  let t : TicksArr :=
    if t.e0 = 10 then
      let t : TicksArr := { t with e0 := 0 }
      { t with e1 := u8 (t.e1 + 1) }
    else t
  let t : TicksArr :=
    if t.e1 = 6 ∧ t.e0 = 0 then
      let t : TicksArr := { t with e1 := 0 }
      { t with e2 := u8 (t.e2 + 1) }
    else t
  let t : TicksArr :=
    if t.e2 = 10 then
      let t : TicksArr := { t with e2 := 0 }
      { t with e3 := u8 (t.e3 + 1) }
    else t
  let t : TicksArr :=
    if t.e3 = 6 ∧ t.e2 = 0 then
      let t : TicksArr := { t with e3 := 0 }
      { t with e4 := u8 (t.e4 + 1) }
    else t
  let t : TicksArr :=
    if t.e4 = 10 then
      let t : TicksArr := { t with e4 := 0 }
      { t with e5 := u8 (t.e5 + 1) }
    else t
  { s with ticks_arr := t }

/-! ## Main program -/

/-- The statements of `main` before the super loop. -/
def main_init (s : State) : State :=
  let s := { s with SREG := u8 (s.SREG ||| (1 <<< 7)) }
  let s := { s with DDRC := u8 (s.DDRC ||| 0x0F) }
  let s := { s with PORTC := u8 (s.PORTC &&& 0xF0) }
  let s := { s with DDRA := u8 (s.DDRA ||| 0x3F) }
  let s := { s with PORTA := u8 (s.PORTA &&& 0xC0) }
  let s := Timer1_CompareMode_Init s
  let s := INT0_Init s
  let s := INT1_Init s
  INT2_Init s

/-- The part of the super loop body after the display call: the flag
check, the update and the flag clear. -/
def main_poll (s : State) : State :=
  if 1 = s.Compare_Interrupt_Flag then
    let s := Seven_Segment_Stopwatch_Update s
    { s with Compare_Interrupt_Flag := 0 }
  else s

/-- One iteration of the super loop `while (1)` of `main`. -/
def main_loop_body (s : State) : State :=
  let s := Seven_Segment_Display s
  main_poll s

/-! ## Specification-side definitions -/

/-- The digits of `N` elapsed seconds: seconds and minutes in base 60
(units and tens), hours in base 10 with the tens stored in one byte. -/
def digitsOf (N : Nat) : TicksArr :=
  ⟨N % 10, N / 10 % 6, N / 60 % 10, N / 600 % 6, N / 3600 % 10, N / 36000 % 256⟩

/-- The digits after one more second, for digits within their ranges. -/
def carry (t : TicksArr) : TicksArr :=
  if t.e0 < 9 then { t with e0 := t.e0 + 1 }
  else if t.e1 < 5 then { t with e0 := 0, e1 := t.e1 + 1 }
  else if t.e2 < 9 then { t with e0 := 0, e1 := 0, e2 := t.e2 + 1 }
  else if t.e3 < 5 then { t with e0 := 0, e1 := 0, e2 := 0, e3 := t.e3 + 1 }
  else if t.e4 < 9 then { t with e0 := 0, e1 := 0, e2 := 0, e3 := 0, e4 := t.e4 + 1 }
  else ⟨0, 0, 0, 0, 0, (t.e5 + 1) % 256⟩

/-- Range invariant of the digit array. -/
def InRange (t : TicksArr) : Prop :=
  t.e0 ≤ 9 ∧ t.e1 ≤ 5 ∧ t.e2 ≤ 9 ∧ t.e3 ≤ 5 ∧ t.e4 ≤ 9

instance (t : TicksArr) : Decidable (InRange t) := by
  unfold InRange
  infer_instance

/-! ## Step model of the running system -/

/-- The timer clock is running: the clock-select bits `CS12:CS10` of
`TCCR1B` are not all zero. -/
def clock_running (s : State) : Prop :=
  s.TCCR1B &&& ((1 <<< CS12) ||| (1 <<< CS11) ||| (1 <<< CS10)) ≠ 0

instance (s : State) : Decidable (clock_running s) := by
  unfold clock_running
  infer_instance

/-- What can happen next: a compare match of Timer1, one of the three
button interrupts, or one iteration of the super loop. -/
inductive Event where
  | compare_match
  | reset_button
  | pause_button
  | resume_button
  | loop_iteration
deriving DecidableEq, Repr

/-- One step of the system.  The compare handler runs only while the timer
clock is running; otherwise no compare match occurs and nothing changes. -/
def step (s : State) : Event → State
  | .compare_match => if clock_running s then TIMER1_COMPA_vect s else s
  | .reset_button => INT0_vect s
  | .pause_button => INT1_vect s
  | .resume_button => INT2_vect s
  | .loop_iteration => main_loop_body s

/-- Run a sequence of events, first to last. -/
def run (s : State) (evs : List Event) : State :=
  evs.foldl step s

/-- A state showing 23:59:59, everything else as after power-up. -/
def sampleState : State :=
  { zeroState with ticks_arr := ⟨9, 5, 9, 5, 3, 2⟩ }

/-- While paused: either nothing has been applied since the pause, or the
tick that was pending at the pause has been applied and the flag is clear. -/
def PausedInv (s x : State) : Prop :=
  ¬ clock_running x ∧
    ((x.Compare_Interrupt_Flag = s.Compare_Interrupt_Flag ∧ x.ticks_arr = s.ticks_arr) ∨
      (s.Compare_Interrupt_Flag = 1 ∧ x.Compare_Interrupt_Flag = 0 ∧
        x.ticks_arr = (Seven_Segment_Stopwatch_Update s).ticks_arr))

/-! ## Definitions for the carry chain -/

/-- The variant of `Seven_Segment_Stopwatch_Update` whose two tens tests are
the plain `ticks_arr[1] == 6` and `ticks_arr[3] == 6`, not gated on the
units digit being 0: the plain units-to-tens-to-next-unit carry chain. -/
def Seven_Segment_Stopwatch_Update_ungated (s : State) : State :=
  let t : TicksArr := s.ticks_arr
  let t : TicksArr := { t with e0 := u8 (t.e0 + 1) }
  let t : TicksArr :=
    if t.e0 = 10 then
      let t : TicksArr := { t with e0 := 0 }
      { t with e1 := u8 (t.e1 + 1) }
    else t
  let t : TicksArr :=
    if t.e1 = 6 then
      let t : TicksArr := { t with e1 := 0 }
      { t with e2 := u8 (t.e2 + 1) }
    else t
  let t : TicksArr :=
    if t.e2 = 10 then
      let t : TicksArr := { t with e2 := 0 }
      { t with e3 := u8 (t.e3 + 1) }
    else t
  let t : TicksArr :=
    if t.e3 = 6 then
      let t : TicksArr := { t with e3 := 0 }
      { t with e4 := u8 (t.e4 + 1) }
    else t
  let t : TicksArr :=
    if t.e4 = 10 then
      let t : TicksArr := { t with e4 := 0 }
      { t with e5 := u8 (t.e5 + 1) }
    else t
  { s with ticks_arr := t }

/-- The array as the statements of `Seven_Segment_Stopwatch_Update` before
the hours test `ticks_arr[4] == 10` leave it. -/
def update_before_hours (t : TicksArr) : TicksArr :=
  let t : TicksArr := { t with e0 := u8 (t.e0 + 1) }
  let t : TicksArr :=
    if t.e0 = 10 then
      let t : TicksArr := { t with e0 := 0 }
      { t with e1 := u8 (t.e1 + 1) }
    else t
  let t : TicksArr :=
    if t.e1 = 6 ∧ t.e0 = 0 then
      let t : TicksArr := { t with e1 := 0 }
      { t with e2 := u8 (t.e2 + 1) }
    else t
  let t : TicksArr :=
    if t.e2 = 10 then
      let t : TicksArr := { t with e2 := 0 }
      { t with e3 := u8 (t.e3 + 1) }
    else t
  if t.e3 = 6 ∧ t.e2 = 0 then
    let t : TicksArr := { t with e3 := 0 }
    { t with e4 := u8 (t.e4 + 1) }
  else t

/-- The update carries out of hours-units: its last test
`ticks_arr[4] == 10` succeeds. -/
def hours_units_carry (s : State) : Prop :=
  (update_before_hours s.ticks_arr).e4 = 10

instance (s : State) : Decidable (hours_units_carry s) := by
  unfold hours_units_carry
  infer_instance

/-- The elapsed time in seconds that a digit array stands for. -/
def elapsed_seconds (t : TicksArr) : Nat :=
  t.e0 + 10 * t.e1 + 60 * t.e2 + 600 * t.e3 + 3600 * t.e4 + 36000 * t.e5

/-! ## Timer1 hardware (ATmega32 data sheet) -/

/-- The clock divisor selected by the bits `CS12:CS10` of `TCCR1B`; 0 when
the timer is stopped or clocked from the external pin. -/
def timer1_prescaler (s : State) : Nat :=
  match s.TCCR1B &&& ((1 <<< CS12) ||| (1 <<< CS11) ||| (1 <<< CS10)) with
  | 1 => 1
  | 2 => 8
  | 3 => 64
  | 4 => 256
  | 5 => 1024
  | _ => 0

/-- One timer clock in CTC mode: the counter counts up, and on the clock
after it has matched `OCR1A` it is cleared. -/
def timer1_clock (s : State) : State :=
  if s.TCNT1 = s.OCR1A then { s with TCNT1 := 0 }
  else { s with TCNT1 := u16 (s.TCNT1 + 1) }

/-- The CPU clock cycles from one compare match to the next in CTC mode:
the counter runs through `0 .. OCR1A`, one value per divided clock. -/
def compare_match_cycles (s : State) : Nat :=
  timer1_prescaler s * (s.OCR1A + 1)

/-! ## Lemmas on the time update -/

theorem update_frame (s : State) :
    Seven_Segment_Stopwatch_Update s =
      { s with ticks_arr := (Seven_Segment_Stopwatch_Update s).ticks_arr } := rfl

theorem update_ticks_congr (s s' : State) (h : s.ticks_arr = s'.ticks_arr) :
    (Seven_Segment_Stopwatch_Update s).ticks_arr =
      (Seven_Segment_Stopwatch_Update s').ticks_arr := by
  simp only [Seven_Segment_Stopwatch_Update, h]

theorem update_ticks_of_inRange (s : State) (h : InRange s.ticks_arr) :
    (Seven_Segment_Stopwatch_Update s).ticks_arr = carry s.ticks_arr := by
  obtain ⟨h0, h1, h2, h3, h4⟩ := h
  simp only [Seven_Segment_Stopwatch_Update, u8]
  generalize s.ticks_arr = t at *
  obtain ⟨a, b, c, d, e, f⟩ := t
  simp only at h0 h1 h2 h3 h4
  have nb : ¬ (b = 6) := by omega
  have nc : ¬ (c = 10) := by omega
  have nd : ¬ (d = 6) := by omega
  have ne : ¬ (e = 10) := by omega
  have wa : (a + 1) % 256 = a + 1 := by omega
  have wb : (b + 1) % 256 = b + 1 := by omega
  have wc : (c + 1) % 256 = c + 1 := by omega
  have wd : (d + 1) % 256 = d + 1 := by omega
  have we : (e + 1) % 256 = e + 1 := by omega
  rcases Nat.lt_or_ge a 9 with ha | ha
  · have na : ¬ (a + 1 = 10) := by omega
    simp [carry, wa, na, nb, nc, nd, ne, ha]
  have ha' : a = 9 := by omega
  subst ha'
  rcases Nat.lt_or_ge b 5 with hb | hb
  · have nb' : ¬ (b + 1 = 6) := by omega
    simp [carry, wb, nb', nc, nd, ne, hb]
  have hb' : b = 5 := by omega
  subst hb'
  rcases Nat.lt_or_ge c 9 with hc | hc
  · have nc' : ¬ (c + 1 = 10) := by omega
    simp [carry, wc, nc', nd, ne, hc]
  have hc' : c = 9 := by omega
  subst hc'
  rcases Nat.lt_or_ge d 5 with hd | hd
  · have nd' : ¬ (d + 1 = 6) := by omega
    simp [carry, wd, nd', ne, hd]
  have hd' : d = 5 := by omega
  subst hd'
  rcases Nat.lt_or_ge e 9 with he | he
  · have ne' : ¬ (e + 1 = 10) := by omega
    simp [carry, we, ne', he]
  have he' : e = 9 := by omega
  subst he'
  simp [carry]

theorem digitsOf_inRange (N : Nat) : InRange (digitsOf N) := by
  simp only [InRange, digitsOf]
  omega

theorem digitsOf_nested (N : Nat) :
    digitsOf N =
      ⟨N % 10, N / 10 % 6, N / 10 / 6 % 10, N / 10 / 6 / 10 % 6, N / 10 / 6 / 10 / 6 % 10,
        N / 10 / 6 / 10 / 6 / 10 % 256⟩ := by
  simp [digitsOf, Nat.div_div_eq_div_mul]

theorem carry_digitsOf (N : Nat) : carry (digitsOf N) = digitsOf (N + 1) := by
  rw [digitsOf_nested, digitsOf_nested]
  simp only [carry]
  rcases Nat.lt_or_ge (N % 10) 9 with h0 | h0
  · have d0 : (N + 1) / 10 = N / 10 := by omega
    have m0 : (N + 1) % 10 = N % 10 + 1 := by omega
    simp [h0, d0, m0]
  have d0 : (N + 1) / 10 = N / 10 + 1 := by omega
  have m0 : (N + 1) % 10 = 0 := by omega
  have k0 : ¬ (N % 10 < 9) := by omega
  rw [d0, m0]
  generalize N / 10 = A at *
  rcases Nat.lt_or_ge (A % 6) 5 with h1 | h1
  · have d1 : (A + 1) / 6 = A / 6 := by omega
    have m1 : (A + 1) % 6 = A % 6 + 1 := by omega
    simp [k0, h1, d1, m1]
  have d1 : (A + 1) / 6 = A / 6 + 1 := by omega
  have m1 : (A + 1) % 6 = 0 := by omega
  have k1 : ¬ (A % 6 < 5) := by omega
  rw [d1, m1]
  generalize A / 6 = B at *
  rcases Nat.lt_or_ge (B % 10) 9 with h2 | h2
  · have d2 : (B + 1) / 10 = B / 10 := by omega
    have m2 : (B + 1) % 10 = B % 10 + 1 := by omega
    simp [k0, k1, h2, d2, m2]
  have d2 : (B + 1) / 10 = B / 10 + 1 := by omega
  have m2 : (B + 1) % 10 = 0 := by omega
  have k2 : ¬ (B % 10 < 9) := by omega
  rw [d2, m2]
  generalize B / 10 = C at *
  rcases Nat.lt_or_ge (C % 6) 5 with h3 | h3
  · have d3 : (C + 1) / 6 = C / 6 := by omega
    have m3 : (C + 1) % 6 = C % 6 + 1 := by omega
    simp [k0, k1, k2, h3, d3, m3]
  have d3 : (C + 1) / 6 = C / 6 + 1 := by omega
  have m3 : (C + 1) % 6 = 0 := by omega
  have k3 : ¬ (C % 6 < 5) := by omega
  rw [d3, m3]
  generalize C / 6 = D at *
  rcases Nat.lt_or_ge (D % 10) 9 with h4 | h4
  · have d4 : (D + 1) / 10 = D / 10 := by omega
    have m4 : (D + 1) % 10 = D % 10 + 1 := by omega
    simp [k0, k1, k2, k3, h4, d4, m4]
  have d4 : (D + 1) / 10 = D / 10 + 1 := by omega
  have m4 : (D + 1) % 10 = 0 := by omega
  have k4 : ¬ (D % 10 < 9) := by omega
  rw [d4, m4]
  simp [k0, k1, k2, k3, k4]

theorem update_digitsOf (s : State) (N : Nat) :
    Seven_Segment_Stopwatch_Update { s with ticks_arr := digitsOf N } =
      { s with ticks_arr := digitsOf (N + 1) } := by
  rw [update_frame, update_ticks_of_inRange _ (digitsOf_inRange N), carry_digitsOf]

theorem iterate_update_zero (s : State) (N : Nat) :
    Seven_Segment_Stopwatch_Update^[N] { s with ticks_arr := zeroTicks } =
      { s with ticks_arr := digitsOf N } := by
  induction N with
  | zero => rfl
  | succ n ih => rw [Function.iterate_succ_apply', ih, update_digitsOf]

/-! ## Lemmas on bytes -/

theorem and_mod_256 (x m : Nat) : (x &&& m) % 256 = (x % 256) &&& (m % 256) := by
  apply Nat.eq_of_testBit_eq
  intro j
  have e : (256 : Nat) = 2 ^ 8 := by norm_num
  simp only [e, Nat.testBit_mod_two_pow, Nat.testBit_and]
  by_cases h : j < 8 <;> simp [h]

theorem or_mod_256 (x m : Nat) : (x ||| m) % 256 = (x % 256) ||| (m % 256) := by
  apply Nat.eq_of_testBit_eq
  intro j
  have e : (256 : Nat) = 2 ^ 8 := by norm_num
  simp only [e, Nat.testBit_mod_two_pow, Nat.testBit_or]
  by_cases h : j < 8 <;> simp [h]

theorem and_small (x m : Nat) (hm : m < 256) : x &&& m = (x % 256) &&& m := by
  have h1 : (x &&& m) % 256 = x &&& m :=
    Nat.mod_eq_of_lt (lt_of_le_of_lt Nat.and_le_right hm)
  rw [← h1, and_mod_256, Nat.mod_eq_of_lt hm]

/-! ## Lemmas on the display loop -/

theorem display_loop_frame (i : Nat) (s : State) :
    (Seven_Segment_Display_loop i s).2.ticks_arr = s.ticks_arr ∧
      (Seven_Segment_Display_loop i s).2.Compare_Interrupt_Flag = s.Compare_Interrupt_Flag ∧
      (Seven_Segment_Display_loop i s).2.TCCR1B = s.TCCR1B := by
  induction i, s using Seven_Segment_Display_loop.induct with
  | case1 i s h s1 s2 ih =>
    rw [Seven_Segment_Display_loop, if_pos h]
    exact ih
  | case2 i s h =>
    rw [Seven_Segment_Display_loop, if_neg h]
    exact ⟨rfl, rfl, rfl⟩

/-! ## Lemmas on the handlers and the super loop -/

theorem timer_iterate_succ (s : State) (k : Nat) :
    (TIMER1_COMPA_vect^[k + 1] s).Compare_Interrupt_Flag = 1 ∧
      (TIMER1_COMPA_vect^[k + 1] s).ticks_arr = s.ticks_arr := by
  induction k with
  | zero => exact ⟨rfl, rfl⟩
  | succ n ih =>
    rw [Function.iterate_succ_apply']
    exact ⟨rfl, ih.2⟩

theorem display_ticks (s : State) : (Seven_Segment_Display s).ticks_arr = s.ticks_arr :=
  (display_loop_frame 0 s).1

theorem display_flag (s : State) :
    (Seven_Segment_Display s).Compare_Interrupt_Flag = s.Compare_Interrupt_Flag :=
  (display_loop_frame 0 s).2.1

theorem display_TCCR1B (s : State) : (Seven_Segment_Display s).TCCR1B = s.TCCR1B :=
  (display_loop_frame 0 s).2.2

theorem loop_body_pending (s : State) (h : s.Compare_Interrupt_Flag = 1) :
    (main_loop_body s).ticks_arr = (Seven_Segment_Stopwatch_Update s).ticks_arr ∧
      (main_loop_body s).Compare_Interrupt_Flag = 0 ∧
      (main_loop_body s).TCCR1B = s.TCCR1B := by
  have hf : 1 = (Seven_Segment_Display s).Compare_Interrupt_Flag := by
    rw [display_flag, h]
  refine ⟨?_, ?_, ?_⟩
  · simp only [main_loop_body, main_poll, if_pos hf]
    exact update_ticks_congr _ _ (display_ticks s)
  · simp only [main_loop_body, main_poll, if_pos hf]
  · simp only [main_loop_body, main_poll, if_pos hf]
    exact display_TCCR1B s

theorem loop_body_idle (s : State) (h : s.Compare_Interrupt_Flag ≠ 1) :
    (main_loop_body s).ticks_arr = s.ticks_arr ∧
      (main_loop_body s).Compare_Interrupt_Flag = s.Compare_Interrupt_Flag ∧
      (main_loop_body s).TCCR1B = s.TCCR1B := by
  have hf : ¬ (1 = (Seven_Segment_Display s).Compare_Interrupt_Flag) := by
    rw [display_flag]
    exact fun e => h e.symm
  simp only [main_loop_body, main_poll, if_neg hf]
  exact ⟨display_ticks s, display_flag s, display_TCCR1B s⟩

/-! ## Lemmas on the pause and resume handlers -/

theorem pause_mask :
    bnot (1 <<< CS10) &&& bnot (1 <<< CS11) &&& bnot (1 <<< CS12) = 65528 := by
  decide

theorem resume_mask : (1 <<< CS10) ||| (1 <<< CS12) = 5 := by
  decide

theorem cs_mask : (1 <<< CS12) ||| (1 <<< CS11) ||| (1 <<< CS10) = 7 := by
  decide

theorem INT1_vect_TCCR1B (s : State) :
    (INT1_vect s).TCCR1B = (s.TCCR1B % 256) &&& 248 := by
  simp only [INT1_vect, u8, pause_mask]
  rw [and_mod_256]

theorem INT2_vect_TCCR1B (s : State) :
    (INT2_vect s).TCCR1B = (s.TCCR1B % 256) ||| 5 := by
  simp only [INT2_vect, u8, resume_mask]
  rw [or_mod_256]

theorem byte_or_idem (x m : Nat) : u8 (u8 (x ||| m) ||| m) = u8 (x ||| m) := by
  simp only [u8]
  rw [or_mod_256 ((x ||| m) % 256) m, Nat.mod_mod, or_mod_256 x m]
  apply Nat.eq_of_testBit_eq
  intro j
  simp only [Nat.testBit_or, Bool.or_assoc, Bool.or_self]

theorem byte_and_idem (x m : Nat) : u8 (u8 (x &&& m) &&& m) = u8 (x &&& m) := by
  simp only [u8]
  rw [and_mod_256 ((x &&& m) % 256) m, Nat.mod_mod, and_mod_256 x m]
  apply Nat.eq_of_testBit_eq
  intro j
  simp only [Nat.testBit_and, Bool.and_assoc, Bool.and_self]

set_option maxRecDepth 100000 in
theorem byte_pause_facts :
    ∀ y, y < 256 → (y &&& 248) &&& 248 = y &&& 248 ∧ (y &&& 248) &&& 7 = 0 := by
  decide

set_option maxRecDepth 100000 in
theorem byte_resume_facts :
    ∀ y, y < 256 → (y ||| 5) &&& 250 = y &&& 250 ∧ (y ||| 5) &&& 5 = 5 := by
  decide

set_option maxRecDepth 100000 in
theorem byte_pause_resume :
    ∀ y, y < 256 → y.testBit 2 = true → y.testBit 0 = true → y.testBit 1 = false →
      ((y % 256 &&& 248) % 256) ||| 5 = y := by
  decide

theorem INT1_vect_stops_clock (s : State) : ¬ clock_running (INT1_vect s) := by
  simp only [clock_running, cs_mask, INT1_vect_TCCR1B, ne_eq, not_not]
  exact (byte_pause_facts _ (Nat.mod_lt _ (by norm_num))).2

/-! ## Lemmas on one display cycle -/

set_option maxRecDepth 100000 in
theorem byte_selector :
    ∀ y, y < 256 → ∀ i, i < 6 → (((y &&& 192) ||| (1 <<< i)) % 256) &&& 63 = 1 <<< i := by
  decide

theorem selector_bits (x i : Nat) (hi : i < 6) :
    u8 ((x &&& 0xC0) ||| (1 <<< i)) &&& 0x3F = 1 <<< i := by
  simp only [u8]
  rw [and_small x 0xC0 (by norm_num)]
  exact byte_selector _ (Nat.mod_lt _ (by norm_num)) i hi

theorem decoder_bus (x d : Nat) : u8 ((x &&& 0x00) ||| (0x0F &&& d)) = 0x0F &&& d := by
  simp only [u8, Nat.and_zero, Nat.zero_or]
  exact Nat.mod_eq_of_lt (lt_of_le_of_lt Nat.and_le_left (by norm_num))

theorem display_loop_steps (i : Nat) (s : State) :
    (Seven_Segment_Display_loop i s).1.map (fun x => (x.PORTA &&& 0x3F, x.PORTC)) =
      (List.range' i (6 - i)).map (fun j => (1 <<< j, 0x0F &&& s.ticks_arr.get j)) := by
  induction i, s using Seven_Segment_Display_loop.induct with
  | case1 i s h s1 s2 ih =>
    rw [Seven_Segment_Display_loop, if_pos h]
    have e1 : u8 (i + 1) = i + 1 := by
      simp only [u8]
      omega
    have e2 : 6 - i = (6 - (i + 1)) + 1 := by omega
    rw [e1] at ih
    rw [e1, e2, List.range'_succ, List.map_cons, List.map_cons]
    simp only [List.cons.injEq, Prod.mk.injEq]
    exact ⟨⟨selector_bits _ _ h, decoder_bus _ _⟩, ih⟩
  | case2 i s h =>
    rw [Seven_Segment_Display_loop, if_neg h]
    have e : 6 - i = 0 := by omega
    rw [e]
    rfl

theorem low_nibble (d : Nat) (h : d ≤ 9) : 0x0F &&& d = d := by
  interval_cases d <;> rfl

/-! ## Lemmas on the step model -/

theorem pausedInv_step (s x : State) (e : Event) (he : e ≠ Event.resume_button)
    (hr : e ≠ Event.reset_button) (hx : PausedInv s x) : PausedInv s (step x e) := by
  obtain ⟨hc, hd⟩ := hx
  cases e with
  | compare_match =>
    simp only [step, if_neg hc]
    exact ⟨hc, hd⟩
  | reset_button => exact absurd rfl hr
  | pause_button => exact ⟨INT1_vect_stops_clock x, hd⟩
  | resume_button => exact absurd rfl he
  | loop_iteration =>
    simp only [step]
    by_cases hf : x.Compare_Interrupt_Flag = 1
    · obtain ⟨ht, hz, hr⟩ := loop_body_pending x hf
      refine ⟨?_, ?_⟩
      · simp only [clock_running, hr]
        exact hc
      · rcases hd with ⟨h1, h2⟩ | ⟨_, h2, _⟩
        · right
          refine ⟨h1 ▸ hf, hz, ?_⟩
          rw [ht]
          exact update_ticks_congr _ _ h2
        · rw [h2] at hf
          exact absurd hf (by decide)
    · obtain ⟨ht, hz, hr⟩ := loop_body_idle x hf
      refine ⟨?_, ?_⟩
      · simp only [clock_running, hr]
        exact hc
      · rw [ht, hz]
        exact hd

theorem pausedInv_run (s : State) (evs : List Event) :
    ∀ x, Event.resume_button ∉ evs → Event.reset_button ∉ evs → PausedInv s x →
      PausedInv s (run x evs) := by
  induction evs with
  | nil => exact fun x _ _ hx => hx
  | cons e es ih =>
    intro x hn hm hx
    have he : e ≠ Event.resume_button := fun h => hn (h ▸ List.mem_cons_self _ _)
    have hes : Event.resume_button ∉ es := fun h => hn (List.mem_cons_of_mem _ h)
    have hr : e ≠ Event.reset_button := fun h => hm (h ▸ List.mem_cons_self _ _)
    have hrs : Event.reset_button ∉ es := fun h => hm (List.mem_cons_of_mem _ h)
    exact ih (step x e) hes hrs (pausedInv_step s x e he hr hx)

/-! ## Lemmas on the timer and on the carry chain variants -/

theorem timer1_init_values (s : State) :
    (Timer1_CompareMode_Init s).TCCR1B = 13 ∧ (Timer1_CompareMode_Init s).TCNT1 = 0 ∧
      (Timer1_CompareMode_Init s).OCR1A = 977 := by
  refine ⟨?_, ?_, ?_⟩ <;> simp only [Timer1_CompareMode_Init] <;> decide

theorem timer1_clock_iterate (s : State) (m : Nat) :
    timer1_clock^[m] (Timer1_CompareMode_Init s) =
      { Timer1_CompareMode_Init s with TCNT1 := m % 978 } := by
  obtain ⟨_, h2, h3⟩ := timer1_init_values s
  induction m with
  | zero =>
    rw [Function.iterate_zero, id_eq, Nat.zero_mod, ← h2]
  | succ n ih =>
    rw [Function.iterate_succ_apply', ih]
    simp only [timer1_clock, h3, u16]
    by_cases hn : n % 978 = 977
    · have e : (n + 1) % 978 = 0 := by omega
      rw [if_pos hn, e]
    · have e : (n % 978 + 1) % 65536 = (n + 1) % 978 := by omega
      rw [if_neg hn, e]

theorem update_ungated_frame (s : State) :
    Seven_Segment_Stopwatch_Update_ungated s =
      { s with ticks_arr := (Seven_Segment_Stopwatch_Update_ungated s).ticks_arr } := rfl

theorem update_ungated_ticks_of_inRange (s : State) (h : InRange s.ticks_arr) :
    (Seven_Segment_Stopwatch_Update_ungated s).ticks_arr = carry s.ticks_arr := by
  obtain ⟨h0, h1, h2, h3, h4⟩ := h
  simp only [Seven_Segment_Stopwatch_Update_ungated, u8]
  generalize s.ticks_arr = t at *
  obtain ⟨a, b, c, d, e, f⟩ := t
  simp only at h0 h1 h2 h3 h4
  have nb : ¬ (b = 6) := by omega
  have nc : ¬ (c = 10) := by omega
  have nd : ¬ (d = 6) := by omega
  have ne : ¬ (e = 10) := by omega
  have wa : (a + 1) % 256 = a + 1 := by omega
  have wb : (b + 1) % 256 = b + 1 := by omega
  have wc : (c + 1) % 256 = c + 1 := by omega
  have wd : (d + 1) % 256 = d + 1 := by omega
  have we : (e + 1) % 256 = e + 1 := by omega
  rcases Nat.lt_or_ge a 9 with ha | ha
  · have na : ¬ (a + 1 = 10) := by omega
    simp [carry, wa, na, nb, nc, nd, ne, ha]
  have ha' : a = 9 := by omega
  subst ha'
  rcases Nat.lt_or_ge b 5 with hb | hb
  · have nb' : ¬ (b + 1 = 6) := by omega
    simp [carry, wb, nb', nc, nd, ne, hb]
  have hb' : b = 5 := by omega
  subst hb'
  rcases Nat.lt_or_ge c 9 with hc | hc
  · have nc' : ¬ (c + 1 = 10) := by omega
    simp [carry, wc, nc', nd, ne, hc]
  have hc' : c = 9 := by omega
  subst hc'
  rcases Nat.lt_or_ge d 5 with hd | hd
  · have nd' : ¬ (d + 1 = 6) := by omega
    simp [carry, wd, nd', ne, hd]
  have hd' : d = 5 := by omega
  subst hd'
  rcases Nat.lt_or_ge e 9 with he | he
  · have ne' : ¬ (e + 1 = 10) := by omega
    simp [carry, we, ne', he]
  have he' : e = 9 := by omega
  subst he'
  simp [carry]


theorem loop_body_iterate_idle (s : State) (h : s.Compare_Interrupt_Flag ≠ 1) (n : Nat) :
    (main_loop_body^[n] s).ticks_arr = s.ticks_arr ∧
      (main_loop_body^[n] s).Compare_Interrupt_Flag = s.Compare_Interrupt_Flag := by
  induction n with
  | zero => exact ⟨rfl, rfl⟩
  | succ k ih =>
    rw [Function.iterate_succ_apply']
    have hk : (main_loop_body^[k] s).Compare_Interrupt_Flag ≠ 1 := by
      rw [ih.2]
      exact h
    obtain ⟨h1, h2, _⟩ := loop_body_idle _ hk
    exact ⟨h1.trans ih.1, h2.trans ih.2⟩

/-! ## Lemmas on the hours carry, the display pins and the interrupt enables -/

theorem update_hours_step (s : State) :
    (Seven_Segment_Stopwatch_Update s).ticks_arr =
      if (update_before_hours s.ticks_arr).e4 = 10 then
        { update_before_hours s.ticks_arr with
          e4 := 0, e5 := u8 ((update_before_hours s.ticks_arr).e5 + 1) }
      else update_before_hours s.ticks_arr := rfl

theorem update_before_hours_e5 (t : TicksArr) : (update_before_hours t).e5 = t.e5 := by
  simp only [update_before_hours]
  split_ifs <;> rfl

theorem update_e5 (s : State) :
    (Seven_Segment_Stopwatch_Update s).ticks_arr.e5 =
      if hours_units_carry s then u8 (s.ticks_arr.e5 + 1) else s.ticks_arr.e5 := by
  rw [update_hours_step]
  unfold hours_units_carry
  split_ifs
  · simp only [update_before_hours_e5]
  · exact update_before_hours_e5 _

set_option maxRecDepth 100000 in
theorem byte_high_bits :
    ∀ y, y < 256 → ∀ i, i < 6 → (((y &&& 192) ||| (1 <<< i)) % 256) &&& 192 = y &&& 192 := by
  decide

theorem high_bits_kept (x i : Nat) (hi : i < 6) :
    u8 ((x &&& 0xC0) ||| (1 <<< i)) &&& 0xC0 = x &&& 0xC0 := by
  simp only [u8]
  rw [and_small x 0xC0 (by norm_num)]
  exact byte_high_bits _ (Nat.mod_lt _ (by norm_num)) i hi

theorem display_loop_high_bits (i : Nat) (s : State) :
    (Seven_Segment_Display_loop i s).1.map (fun x => x.PORTA &&& 0xC0) =
      List.replicate (6 - i) (s.PORTA &&& 0xC0) := by
  induction i, s using Seven_Segment_Display_loop.induct with
  | case1 i s h s1 s2 ih =>
    rw [Seven_Segment_Display_loop, if_pos h]
    have e1 : u8 (i + 1) = i + 1 := by
      simp only [u8]
      omega
    have e2 : 6 - i = (6 - (i + 1)) + 1 := by omega
    have e3 : s2.PORTA &&& 0xC0 = s.PORTA &&& 0xC0 := high_bits_kept _ _ h
    rw [e1, e3] at ih
    rw [e1, e2, List.replicate_succ, List.map_cons]
    simp only [List.cons.injEq]
    exact ⟨high_bits_kept _ _ h, ih⟩
  | case2 i s h =>
    rw [Seven_Segment_Display_loop, if_neg h]
    have e : 6 - i = 0 := by omega
    rw [e]
    rfl

theorem init_GICR (s : State) : (INT2_Init (INT1_Init (INT0_Init s))).GICR = 224 := by
  simp only [INT0_Init, INT1_Init, INT2_Init]
  decide

/-! ## Lemmas on the sense control of the reset line -/

/-- C1 (amended): applying `Seven_Segment_Stopwatch_Update` N times to the
all-zero digit array gives seconds-units `N mod 10`, seconds-tens
`(N div 10) mod 6`, minutes-units `(N div 60) mod 10`, minutes-tens
`(N div 600) mod 6`, hours-units `(N div 3600) mod 10` and, hours-tens being
one byte, hours-tens `(N div 36000) mod 256`; N = 1, 9, 10, 60, 600, 3600
give 00:00:01, 00:00:09, 00:00:10, 00:01:00, 00:10:00, 01:00:00. -/
theorem update_iterate_digits (s : State) (N : Nat) :
    (Seven_Segment_Stopwatch_Update^[N] { s with ticks_arr := zeroTicks }).ticks_arr =
        ⟨N % 10, N / 10 % 6, N / 60 % 10, N / 600 % 6, N / 3600 % 10, N / 36000 % 256⟩ ∧
      (Seven_Segment_Stopwatch_Update^[1] { s with ticks_arr := zeroTicks }).ticks_arr =
        ⟨1, 0, 0, 0, 0, 0⟩ ∧
      (Seven_Segment_Stopwatch_Update^[9] { s with ticks_arr := zeroTicks }).ticks_arr =
        ⟨9, 0, 0, 0, 0, 0⟩ ∧
      (Seven_Segment_Stopwatch_Update^[10] { s with ticks_arr := zeroTicks }).ticks_arr =
        ⟨0, 1, 0, 0, 0, 0⟩ ∧
      (Seven_Segment_Stopwatch_Update^[60] { s with ticks_arr := zeroTicks }).ticks_arr =
        ⟨0, 0, 1, 0, 0, 0⟩ ∧
      (Seven_Segment_Stopwatch_Update^[600] { s with ticks_arr := zeroTicks }).ticks_arr =
        ⟨0, 0, 0, 1, 0, 0⟩ ∧
      (Seven_Segment_Stopwatch_Update^[3600] { s with ticks_arr := zeroTicks }).ticks_arr =
        ⟨0, 0, 0, 0, 1, 0⟩ := by
  simp only [iterate_update_zero]
  exact ⟨rfl, by decide, by decide, by decide, by decide, by decide, by decide⟩

/-- C1 (counterexample): after 9216000 updates from the all-zero array the
hours-tens byte has wrapped to 0, while 9216000 div 36000 is 256. -/
theorem update_iterate_hours_tens_wraps :
    (Seven_Segment_Stopwatch_Update^[9216000]
        { zeroState with ticks_arr := zeroTicks }).ticks_arr.e5 = 0 ∧
      (Seven_Segment_Stopwatch_Update^[9216000]
        { zeroState with ticks_arr := zeroTicks }).ticks_arr.e5 ≠ 9216000 / 36000 := by
  rw [iterate_update_zero]
  exact ⟨by decide, by decide⟩

/-- C3: ticks are not queued.  For every state and every k ≥ 1, k runs of
the compare handler followed by one iteration of the super loop leave the
same digits as one run of the handler followed by one iteration, namely the
digits advanced by a single `Seven_Segment_Stopwatch_Update`, and
`Compare_Interrupt_Flag` is 0 afterwards. -/
theorem ticks_not_queued (s : State) (k : Nat) (hk : 1 ≤ k) :
    (main_loop_body (TIMER1_COMPA_vect^[k] s)).ticks_arr =
        (main_loop_body (TIMER1_COMPA_vect s)).ticks_arr ∧
      (main_loop_body (TIMER1_COMPA_vect^[k] s)).ticks_arr =
        (Seven_Segment_Stopwatch_Update s).ticks_arr ∧
      (main_loop_body (TIMER1_COMPA_vect^[k] s)).Compare_Interrupt_Flag = 0 := by
  obtain ⟨n, rfl⟩ : ∃ n, k = n + 1 := ⟨k - 1, by omega⟩
  have hk1 := timer_iterate_succ s n
  have hA := loop_body_pending (TIMER1_COMPA_vect^[n + 1] s) hk1.1
  have hB := loop_body_pending (TIMER1_COMPA_vect s) rfl
  have e1 : (Seven_Segment_Stopwatch_Update (TIMER1_COMPA_vect^[n + 1] s)).ticks_arr =
      (Seven_Segment_Stopwatch_Update s).ticks_arr := update_ticks_congr _ _ hk1.2
  have e2 : (Seven_Segment_Stopwatch_Update (TIMER1_COMPA_vect s)).ticks_arr =
      (Seven_Segment_Stopwatch_Update s).ticks_arr := update_ticks_congr _ _ rfl
  exact ⟨by rw [hA.1, hB.1, e1, e2], by rw [hA.1, e1], hA.2.1⟩

/-- C3 (witness): three compare matches before the super loop polls, at
23:59:59. -/
theorem ticks_not_queued_witness :
    1 ≤ 3 ∧
      (main_loop_body (TIMER1_COMPA_vect^[3] sampleState)).ticks_arr =
        (main_loop_body (TIMER1_COMPA_vect sampleState)).ticks_arr ∧
      (main_loop_body (TIMER1_COMPA_vect^[3] sampleState)).ticks_arr =
        (Seven_Segment_Stopwatch_Update sampleState).ticks_arr ∧
      (main_loop_body (TIMER1_COMPA_vect^[3] sampleState)).Compare_Interrupt_Flag = 0 :=
  ⟨by decide, ticks_not_queued sampleState 3 (by decide)⟩

/-- C5: pause and resume are idempotent.  For every state, running
`ISR(INT1_vect)` twice gives the same state as running it once, and running
`ISR(INT2_vect)` twice gives the same state as running it once. -/
theorem pause_resume_idempotent (s : State) :
    INT1_vect (INT1_vect s) = INT1_vect s ∧ INT2_vect (INT2_vect s) = INT2_vect s := by
  constructor
  · simp only [INT1_vect, byte_or_idem, byte_and_idem]
  · simp only [INT2_vect, byte_or_idem]

/-- C7: pause and resume change only the clock gate.  For every state both
handlers leave `TCNT1`, `OCR1A`, the six digits and `Compare_Interrupt_Flag`
unchanged; pause leaves bits 3..7 of `TCCR1B` as they were and clears `CS12`,
`CS11` and `CS10`; resume leaves every bit of `TCCR1B` other than `CS12` and
`CS10` as it was and sets `CS12` and `CS10`. -/
theorem pause_resume_frame (s : State) :
    ((INT1_vect s).TCNT1 = s.TCNT1 ∧ (INT1_vect s).OCR1A = s.OCR1A ∧
        (INT1_vect s).ticks_arr = s.ticks_arr ∧
        (INT1_vect s).Compare_Interrupt_Flag = s.Compare_Interrupt_Flag ∧
        (INT1_vect s).TCCR1B &&& (0xFF ^^^ ((1 <<< CS12) ||| (1 <<< CS11) ||| (1 <<< CS10))) =
          s.TCCR1B &&& (0xFF ^^^ ((1 <<< CS12) ||| (1 <<< CS11) ||| (1 <<< CS10))) ∧
        (INT1_vect s).TCCR1B &&& ((1 <<< CS12) ||| (1 <<< CS11) ||| (1 <<< CS10)) = 0) ∧
      ((INT2_vect s).TCNT1 = s.TCNT1 ∧ (INT2_vect s).OCR1A = s.OCR1A ∧
        (INT2_vect s).ticks_arr = s.ticks_arr ∧
        (INT2_vect s).Compare_Interrupt_Flag = s.Compare_Interrupt_Flag ∧
        (INT2_vect s).TCCR1B &&& (0xFF ^^^ ((1 <<< CS12) ||| (1 <<< CS10))) =
          s.TCCR1B &&& (0xFF ^^^ ((1 <<< CS12) ||| (1 <<< CS10))) ∧
        (INT2_vect s).TCCR1B &&& ((1 <<< CS12) ||| (1 <<< CS10)) =
          (1 <<< CS12) ||| (1 <<< CS10)) := by
  have hy : s.TCCR1B % 256 < 256 := Nat.mod_lt _ (by norm_num)
  have m1 : (0xFF ^^^ ((1 <<< CS12) ||| (1 <<< CS11) ||| (1 <<< CS10))) = 248 := by decide
  have m2 : (0xFF ^^^ ((1 <<< CS12) ||| (1 <<< CS10))) = 250 := by decide
  have m3 : (1 <<< CS12) ||| (1 <<< CS10) = 5 := by decide
  rw [m1, m2, m3, cs_mask, INT1_vect_TCCR1B, INT2_vect_TCCR1B,
    and_small s.TCCR1B 248 (by norm_num), and_small s.TCCR1B 250 (by norm_num)]
  exact ⟨⟨rfl, rfl, rfl, rfl, byte_pause_facts _ hy⟩, ⟨rfl, rfl, rfl, rfl, byte_resume_facts _ hy⟩⟩

/-- C8: resuming re-enables the clock input that pausing disabled.  For the
`TCCR1B` value written by `Timer1_CompareMode_Init`, and for every 8-bit
`TCCR1B` value with `CS12` and `CS10` set and `CS11` clear, pause followed by
resume returns `TCCR1B` to its value before the pause. -/
theorem pause_resume_restores (s0 s : State) (hb : s.TCCR1B < 256)
    (h12 : s.TCCR1B.testBit CS12 = true) (h10 : s.TCCR1B.testBit CS10 = true)
    (h11 : s.TCCR1B.testBit CS11 = false) :
    (INT2_vect (INT1_vect (Timer1_CompareMode_Init s0))).TCCR1B =
        (Timer1_CompareMode_Init s0).TCCR1B ∧
      (INT2_vect (INT1_vect s)).TCCR1B = s.TCCR1B := by
  constructor
  · rw [INT2_vect_TCCR1B, INT1_vect_TCCR1B]
    have e : (Timer1_CompareMode_Init s0).TCCR1B = 13 := by
      simp only [Timer1_CompareMode_Init]
      decide
    rw [e]
    decide
  · rw [INT2_vect_TCCR1B, INT1_vect_TCCR1B]
    exact byte_pause_resume _ hb h12 h10 h11

/-- C8 (witness): the state right after `Timer1_CompareMode_Init`. -/
theorem pause_resume_restores_witness :
    ((Timer1_CompareMode_Init sampleState).TCCR1B < 256 ∧
      (Timer1_CompareMode_Init sampleState).TCCR1B.testBit CS12 = true ∧
      (Timer1_CompareMode_Init sampleState).TCCR1B.testBit CS10 = true ∧
      (Timer1_CompareMode_Init sampleState).TCCR1B.testBit CS11 = false) ∧
    (INT2_vect (INT1_vect (Timer1_CompareMode_Init zeroState))).TCCR1B =
        (Timer1_CompareMode_Init zeroState).TCCR1B ∧
      (INT2_vect (INT1_vect (Timer1_CompareMode_Init sampleState))).TCCR1B =
        (Timer1_CompareMode_Init sampleState).TCCR1B :=
  ⟨by decide, pause_resume_restores zeroState (Timer1_CompareMode_Init sampleState)
    (by decide) (by decide) (by decide) (by decide)⟩

/-- C9: reset does not touch the run state.  For every state the handler
`ISR(INT0_vect)` leaves `TCCR1B`, `TCNT1` and `Compare_Interrupt_Flag`
unchanged. -/
theorem reset_keeps_run_state (s : State) :
    (INT0_vect s).TCCR1B = s.TCCR1B ∧ (INT0_vect s).TCNT1 = s.TCNT1 ∧
      (INT0_vect s).Compare_Interrupt_Flag = s.Compare_Interrupt_Flag :=
  ⟨rfl, rfl, rfl⟩

/-- C10: range invariant.  After any number of completed
`Seven_Segment_Stopwatch_Update` calls from the all-zero array,
seconds-units, minutes-units and hours-units are at most 9 and seconds-tens
and minutes-tens are at most 5. -/
theorem update_iterate_in_range (s : State) (N : Nat) :
    (Seven_Segment_Stopwatch_Update^[N] { s with ticks_arr := zeroTicks }).ticks_arr.e0 ≤ 9 ∧
      (Seven_Segment_Stopwatch_Update^[N] { s with ticks_arr := zeroTicks }).ticks_arr.e1 ≤ 5 ∧
      (Seven_Segment_Stopwatch_Update^[N] { s with ticks_arr := zeroTicks }).ticks_arr.e2 ≤ 9 ∧
      (Seven_Segment_Stopwatch_Update^[N] { s with ticks_arr := zeroTicks }).ticks_arr.e3 ≤ 5 ∧
      (Seven_Segment_Stopwatch_Update^[N] { s with ticks_arr := zeroTicks }).ticks_arr.e4 ≤ 9 := by
  rw [iterate_update_zero]
  exact digitsOf_inRange N

/-- C6: one display cycle.  For every state whose six digits are at most 9
and every prior value of `PORTA` and `PORTC`, one call of
`Seven_Segment_Display` performs exactly six position-steps, in the order
i = 0, 1, ..., 5; at step i the selector bits 0..5 of `PORTA` equal
`1 << i` and `PORTC` carries `ticks_arr[i]`. -/
theorem display_cycle (s : State)
    (h0 : s.ticks_arr.e0 ≤ 9) (h1 : s.ticks_arr.e1 ≤ 9) (h2 : s.ticks_arr.e2 ≤ 9)
    (h3 : s.ticks_arr.e3 ≤ 9) (h4 : s.ticks_arr.e4 ≤ 9) (h5 : s.ticks_arr.e5 ≤ 9) :
    (Seven_Segment_Display_steps s).map (fun x => (x.PORTA &&& 0x3F, x.PORTC)) =
      [(1 <<< 0, s.ticks_arr.get 0), (1 <<< 1, s.ticks_arr.get 1),
        (1 <<< 2, s.ticks_arr.get 2), (1 <<< 3, s.ticks_arr.get 3),
        (1 <<< 4, s.ticks_arr.get 4), (1 <<< 5, s.ticks_arr.get 5)] := by
  rw [Seven_Segment_Display_steps, display_loop_steps]
  simp only [Nat.sub_zero, List.range', List.map_cons, List.map_nil, TicksArr.get,
    low_nibble _ h0, low_nibble _ h1, low_nibble _ h2, low_nibble _ h3, low_nibble _ h4,
    low_nibble _ h5]

/-- C6 (witness): the display cycle at 23:59:59. -/
theorem display_cycle_witness :
    (Seven_Segment_Display_steps sampleState).map (fun x => (x.PORTA &&& 0x3F, x.PORTC)) =
      [(1 <<< 0, sampleState.ticks_arr.get 0), (1 <<< 1, sampleState.ticks_arr.get 1),
        (1 <<< 2, sampleState.ticks_arr.get 2), (1 <<< 3, sampleState.ticks_arr.get 3),
        (1 <<< 4, sampleState.ticks_arr.get 4), (1 <<< 5, sampleState.ticks_arr.get 5)] :=
  display_cycle sampleState (by decide) (by decide) (by decide) (by decide) (by decide)
    (by decide)

/-- C2 (the code at the failing input): at 23:59:59 the handler
`ISR(INT0_vect)` leaves `ticks_arr` as it was, the next display cycle still
sends 9, 5, 9, 5, 3, 2 to the decoder, and the next update gives 24:00:00. -/
theorem reset_leaves_ticks_arr :
    (INT0_vect sampleState).ticks_arr = ⟨9, 5, 9, 5, 3, 2⟩ ∧
      (INT0_vect sampleState).ticks_arr ≠ zeroTicks ∧
      (Seven_Segment_Display_steps (INT0_vect sampleState)).map
          (fun x => (x.PORTA &&& 0x3F, x.PORTC)) =
        [(1, 9), (2, 5), (4, 9), (8, 5), (16, 3), (32, 2)] ∧
      (Seven_Segment_Stopwatch_Update (INT0_vect sampleState)).ticks_arr =
        ⟨0, 0, 0, 0, 4, 2⟩ := by
  refine ⟨by decide, by decide, ?_, by decide⟩
  rw [Seven_Segment_Display_steps, display_loop_steps]
  decide

/-- C4 (amended): in the step model where the compare handler runs only
while the clock-select bits are not all zero, after the pause handler has
run, over any sequence of compare matches, pause presses and loop iterations
(no resume, no reset press), the digits are those at the pause if no tick
was pending (`Compare_Interrupt_Flag` not 1), and otherwise either those at
the pause or those advanced by the one pending update. -/
theorem paused_at_most_pending_tick (s : State) (evs : List Event)
    (h : Event.resume_button ∉ evs) (hr : Event.reset_button ∉ evs) :
    (s.Compare_Interrupt_Flag ≠ 1 → (run (INT1_vect s) evs).ticks_arr = s.ticks_arr) ∧
      ((run (INT1_vect s) evs).ticks_arr = s.ticks_arr ∨
        (run (INT1_vect s) evs).ticks_arr = (Seven_Segment_Stopwatch_Update s).ticks_arr) := by
  have h0 : PausedInv s (INT1_vect s) := ⟨INT1_vect_stops_clock s, Or.inl ⟨rfl, rfl⟩⟩
  obtain ⟨_, hd⟩ := pausedInv_run s evs (INT1_vect s) h hr h0
  constructor
  · intro hf
    rcases hd with ⟨_, h2⟩ | ⟨h1, _, _⟩
    · exact h2
    · exact absurd h1 hf
  · rcases hd with ⟨_, h2⟩ | ⟨_, _, h3⟩
    · exact Or.inl h2
    · exact Or.inr h3

/-- C4 (witness): paused at 23:59:59 with no tick pending, then loop
iterations, a disabled compare match and a second pause. -/
theorem paused_at_most_pending_tick_witness :
    (Event.resume_button ∉
        [Event.loop_iteration, Event.compare_match, Event.loop_iteration,
          Event.pause_button, Event.loop_iteration] ∧
      Event.reset_button ∉
        [Event.loop_iteration, Event.compare_match, Event.loop_iteration,
          Event.pause_button, Event.loop_iteration]) ∧
      ((sampleState.Compare_Interrupt_Flag ≠ 1 →
          (run (INT1_vect sampleState)
            [Event.loop_iteration, Event.compare_match, Event.loop_iteration,
              Event.pause_button, Event.loop_iteration]).ticks_arr =
            sampleState.ticks_arr) ∧
        ((run (INT1_vect sampleState)
            [Event.loop_iteration, Event.compare_match, Event.loop_iteration,
              Event.pause_button, Event.loop_iteration]).ticks_arr =
            sampleState.ticks_arr ∨
          (run (INT1_vect sampleState)
            [Event.loop_iteration, Event.compare_match, Event.loop_iteration,
              Event.pause_button, Event.loop_iteration]).ticks_arr =
            (Seven_Segment_Stopwatch_Update sampleState).ticks_arr)) :=
  ⟨by decide, paused_at_most_pending_tick sampleState _ (by decide) (by decide)⟩

/-- C4 (counterexample): from the initialised system, a compare match sets
the flag, the pause handler runs, and the next loop iteration still advances
the digits from 00:00:00 to 00:00:01 although the clock is stopped. -/
theorem pending_tick_applied_after_pause :
    ¬ clock_running
        (run (main_init zeroState) [Event.compare_match, Event.pause_button]) ∧
      (run (main_init zeroState)
          [Event.compare_match, Event.pause_button]).ticks_arr = ⟨0, 0, 0, 0, 0, 0⟩ ∧
      (run (main_init zeroState)
          [Event.compare_match, Event.pause_button, Event.loop_iteration]).ticks_arr =
        ⟨1, 0, 0, 0, 0, 0⟩ := by
  have hrun : clock_running (main_init zeroState) := by decide
  have e1 : run (main_init zeroState) [Event.compare_match, Event.pause_button] =
      INT1_vect (TIMER1_COMPA_vect (main_init zeroState)) := by
    simp only [run, List.foldl, step, if_pos hrun]
  have e2 : run (main_init zeroState)
      [Event.compare_match, Event.pause_button, Event.loop_iteration] =
      main_loop_body (INT1_vect (TIMER1_COMPA_vect (main_init zeroState))) := by
    simp only [run, List.foldl, step, if_pos hrun]
  rw [e1, e2]
  refine ⟨INT1_vect_stops_clock _, by decide, ?_⟩
  rw [(loop_body_pending _ rfl).1]
  decide

/-- C11 (amended): with the values `Timer1_CompareMode_Init` writes the
divisor is 1024 and the counter runs through 0..977, so the compare match
recurs every 978 timer clocks, that is every 1024 * 978 = 1001472 CPU clock
cycles; this is the number of cycles in one second only for an oscillator
frequency of 1001472 Hz. -/
theorem compare_match_period (s : State) (F_CPU m : Nat) :
    timer1_prescaler (Timer1_CompareMode_Init s) = 1024 ∧
      (timer1_clock^[m] (Timer1_CompareMode_Init s)).TCNT1 = m % 978 ∧
      ((timer1_clock^[m] (Timer1_CompareMode_Init s)).TCNT1 =
          (timer1_clock^[m] (Timer1_CompareMode_Init s)).OCR1A ↔ m % 978 = 977) ∧
      compare_match_cycles (Timer1_CompareMode_Init s) = 1024 * 978 ∧
      (compare_match_cycles (Timer1_CompareMode_Init s) = F_CPU ↔ F_CPU = 1001472) := by
  obtain ⟨h1, h2, h3⟩ := timer1_init_values s
  have hp : timer1_prescaler (Timer1_CompareMode_Init s) = 1024 := by
    simp only [timer1_prescaler, h1]
    decide
  have hc : compare_match_cycles (Timer1_CompareMode_Init s) = 1001472 := by
    simp only [compare_match_cycles, hp, h3]
  rw [timer1_clock_iterate, hc]
  refine ⟨hp, rfl, ?_, rfl, ?_⟩
  · simp only [h3]
  · exact ⟨fun h => h.symm, fun h => h.symm⟩

/-- C11 (counterexample): at 1 MHz, the frequency `util/delay.h` assumes
when `F_CPU` is not defined, and likewise at 8 MHz and 16 MHz, the cycles
between two compare matches are not the cycles of one second. -/
theorem compare_match_cycles_not_one_second :
    compare_match_cycles (Timer1_CompareMode_Init zeroState) = 1001472 ∧
      compare_match_cycles (Timer1_CompareMode_Init zeroState) ≠ 1000000 ∧
      compare_match_cycles (Timer1_CompareMode_Init zeroState) ≠ 8000000 ∧
      compare_match_cycles (Timer1_CompareMode_Init zeroState) ≠ 16000000 := by
  decide

/-- C12: one advance per consumed flag.  With `Compare_Interrupt_Flag` = 1
the part of a loop iteration after the display call applies
`Seven_Segment_Stopwatch_Update` once and leaves the flag 0, and so does the
whole iteration on the digits; with the flag 0 it changes nothing, and any
number of further iterations leaves the digits and the flag as they are
until the compare handler runs again. -/
theorem one_advance_per_flag (s : State) (n : Nat) :
    main_poll { s with Compare_Interrupt_Flag := 1 } =
        { Seven_Segment_Stopwatch_Update s with Compare_Interrupt_Flag := 0 } ∧
      (main_loop_body { s with Compare_Interrupt_Flag := 1 }).ticks_arr =
        (Seven_Segment_Stopwatch_Update s).ticks_arr ∧
      (main_loop_body { s with Compare_Interrupt_Flag := 1 }).Compare_Interrupt_Flag = 0 ∧
      main_poll { s with Compare_Interrupt_Flag := 0 } =
        { s with Compare_Interrupt_Flag := 0 } ∧
      (main_loop_body^[n] { s with Compare_Interrupt_Flag := 0 }).ticks_arr = s.ticks_arr ∧
      (main_loop_body^[n] { s with Compare_Interrupt_Flag := 0 }).Compare_Interrupt_Flag = 0 ∧
      (main_loop_body
          (TIMER1_COMPA_vect
            (main_loop_body^[n] { s with Compare_Interrupt_Flag := 0 }))).ticks_arr =
        (Seven_Segment_Stopwatch_Update s).ticks_arr := by
  have hp := loop_body_pending { s with Compare_Interrupt_Flag := 1 } rfl
  have hi := loop_body_iterate_idle { s with Compare_Interrupt_Flag := 0 } Nat.zero_ne_one n
  have hq := loop_body_pending
    (TIMER1_COMPA_vect (main_loop_body^[n] { s with Compare_Interrupt_Flag := 0 })) rfl
  have hA : main_poll { s with Compare_Interrupt_Flag := 1 } =
      { Seven_Segment_Stopwatch_Update s with Compare_Interrupt_Flag := 0 } := by
    simp only [main_poll, if_true, Seven_Segment_Stopwatch_Update]
  have hB : main_poll { s with Compare_Interrupt_Flag := 0 } =
      { s with Compare_Interrupt_Flag := 0 } := by
    simp only [main_poll, Nat.one_ne_zero, if_false]
  refine ⟨hA, ?_, hp.2.1, hB, hi.1, hi.2, ?_⟩
  · rw [hp.1]
    exact update_ticks_congr _ _ rfl
  · rw [hq.1]
    exact update_ticks_congr _ _ hi.1

/-- C13: the gated tens tests are right on every reachable state.  On every
state reached from the all-zero array by `Seven_Segment_Stopwatch_Update`
calls, the update returns the same state as the variant with the ungated
tests `ticks_arr[1] == 6` and `ticks_arr[3] == 6`. -/
theorem gated_update_eq_ungated (s : State) (N : Nat) :
    Seven_Segment_Stopwatch_Update
        (Seven_Segment_Stopwatch_Update^[N] { s with ticks_arr := zeroTicks }) =
      Seven_Segment_Stopwatch_Update_ungated
        (Seven_Segment_Stopwatch_Update^[N] { s with ticks_arr := zeroTicks }) := by
  rw [iterate_update_zero, update_frame, update_ungated_frame,
    update_ticks_of_inRange _ (digitsOf_inRange N),
    update_ungated_ticks_of_inRange _ (digitsOf_inRange N)]

/-- C14 (amended): for every state whose hours-tens byte is below 255, the
hours-tens after `Seven_Segment_Stopwatch_Update` is at least its value
before, and it is exactly one greater when the update carries out of
hours-units and unchanged otherwise. -/
theorem hours_tens_step (s : State) (h : s.ticks_arr.e5 < 255) :
    s.ticks_arr.e5 ≤ (Seven_Segment_Stopwatch_Update s).ticks_arr.e5 ∧
      (Seven_Segment_Stopwatch_Update s).ticks_arr.e5 =
        if hours_units_carry s then s.ticks_arr.e5 + 1 else s.ticks_arr.e5 := by
  have hw : u8 (s.ticks_arr.e5 + 1) = s.ticks_arr.e5 + 1 := by
    simp only [u8]
    omega
  rw [update_e5, hw]
  split_ifs
  · exact ⟨Nat.le_succ _, rfl⟩
  · exact ⟨Nat.le_refl _, rfl⟩

/-- C14 (witness): the carry out of hours-units at 09:59:59. -/
theorem hours_tens_step_witness :
    (⟨9, 5, 9, 5, 9, 0⟩ : TicksArr).e5 < 255 ∧
      ((⟨9, 5, 9, 5, 9, 0⟩ : TicksArr).e5 ≤
          (Seven_Segment_Stopwatch_Update
            { zeroState with ticks_arr := ⟨9, 5, 9, 5, 9, 0⟩ }).ticks_arr.e5 ∧
        (Seven_Segment_Stopwatch_Update
            { zeroState with ticks_arr := ⟨9, 5, 9, 5, 9, 0⟩ }).ticks_arr.e5 =
          if hours_units_carry { zeroState with ticks_arr := ⟨9, 5, 9, 5, 9, 0⟩ } then
            (⟨9, 5, 9, 5, 9, 0⟩ : TicksArr).e5 + 1
          else (⟨9, 5, 9, 5, 9, 0⟩ : TicksArr).e5) :=
  ⟨by decide, hours_tens_step { zeroState with ticks_arr := ⟨9, 5, 9, 5, 9, 0⟩ } (by decide)⟩

/-- C14 (counterexample): after 9215999 updates from the all-zero array the
digits are 9, 5, 9, 5, 9 with hours-tens 255; the next update carries out of
hours-units and leaves hours-tens 0, which is less than 255. -/
theorem hours_tens_wraps_at_255 :
    (Seven_Segment_Stopwatch_Update^[9215999]
        { zeroState with ticks_arr := zeroTicks }).ticks_arr = ⟨9, 5, 9, 5, 9, 255⟩ ∧
      hours_units_carry
        (Seven_Segment_Stopwatch_Update^[9215999]
          { zeroState with ticks_arr := zeroTicks }) ∧
      (Seven_Segment_Stopwatch_Update
        (Seven_Segment_Stopwatch_Update^[9215999]
          { zeroState with ticks_arr := zeroTicks })).ticks_arr.e5 = 0 ∧
      ¬ ((Seven_Segment_Stopwatch_Update^[9215999]
            { zeroState with ticks_arr := zeroTicks }).ticks_arr.e5 ≤
          (Seven_Segment_Stopwatch_Update
            (Seven_Segment_Stopwatch_Update^[9215999]
              { zeroState with ticks_arr := zeroTicks })).ticks_arr.e5) := by
  rw [iterate_update_zero]
  decide

/-- C16: one update is one second.  For every state within the range
invariant and with hours-tens below 255, the elapsed seconds of the digits
after `Seven_Segment_Stopwatch_Update` are one more than before, and the
digits are again within the range invariant. -/
theorem update_adds_one_second (s : State) (h : InRange s.ticks_arr)
    (h5 : s.ticks_arr.e5 < 255) :
    elapsed_seconds (Seven_Segment_Stopwatch_Update s).ticks_arr =
        elapsed_seconds s.ticks_arr + 1 ∧
      InRange (Seven_Segment_Stopwatch_Update s).ticks_arr := by
  rw [update_ticks_of_inRange s h]
  obtain ⟨h0, h1, h2, h3, h4⟩ := h
  simp only [carry, elapsed_seconds, InRange]
  split_ifs <;> simp only <;> omega

/-- C16 (witness): the update at 23:59:59. -/
theorem update_adds_one_second_witness :
    (InRange sampleState.ticks_arr ∧ sampleState.ticks_arr.e5 < 255) ∧
      elapsed_seconds (Seven_Segment_Stopwatch_Update sampleState).ticks_arr =
        elapsed_seconds sampleState.ticks_arr + 1 ∧
      InRange (Seven_Segment_Stopwatch_Update sampleState).ticks_arr :=
  ⟨by decide, update_adds_one_second sampleState (by decide) (by decide)⟩

/-- C17: the display only reads the digits and only drives its own pins.
For every state, a call of `Seven_Segment_Display` leaves `ticks_arr`,
`Compare_Interrupt_Flag` and `TCCR1B` unchanged, and at each of its six
steps bits 6 and 7 of `PORTA` have the values they had before the call. -/
theorem display_frame (s : State) :
    (Seven_Segment_Display s).ticks_arr = s.ticks_arr ∧
      (Seven_Segment_Display s).Compare_Interrupt_Flag = s.Compare_Interrupt_Flag ∧
      (Seven_Segment_Display s).TCCR1B = s.TCCR1B ∧
      (Seven_Segment_Display_steps s).map (fun x => x.PORTA &&& ((1 <<< 6) ||| (1 <<< 7))) =
        List.replicate 6 (s.PORTA &&& ((1 <<< 6) ||| (1 <<< 7))) := by
  have e : (1 <<< 6) ||| (1 <<< 7) = 0xC0 := by decide
  rw [e, Seven_Segment_Display_steps, display_loop_high_bits]
  exact ⟨display_ticks s, display_flag s, display_TCCR1B s, rfl⟩

/-- C18: all three control lines are armed.  For every prior value of
`GICR`, after `INT0_Init`, `INT1_Init` and `INT2_Init` in the order `main`
calls them, and so after the whole initialisation of `main`, the enable bits
`INT0`, `INT1` and `INT2` of `GICR` are 1. -/
theorem control_lines_armed (s : State) :
    ((INT2_Init (INT1_Init (INT0_Init s))).GICR.testBit INT0 = true ∧
        (INT2_Init (INT1_Init (INT0_Init s))).GICR.testBit INT1 = true ∧
        (INT2_Init (INT1_Init (INT0_Init s))).GICR.testBit INT2 = true) ∧
      ((main_init s).GICR.testBit INT0 = true ∧ (main_init s).GICR.testBit INT1 = true ∧
        (main_init s).GICR.testBit INT2 = true) := by
  have hm : (main_init s).GICR = 224 := by
    simp only [main_init]
    exact init_GICR _
  rw [init_GICR, hm]
  decide

end Stopwatch
